import Mathlib

/-!
Verification of the Crm-platform repository: a shallow embedding of the
task-creation edge function (`backend/edge-functions/create-task/index.ts`),
the dashboard query (`pages/dashboard/today.tsx`), and the row-level
security policies on the `leads` table (`backend/rls_policies.sql`),
together with theorems settling the specification's claims about them.

Machine timestamps are modelled as `Nat` milliseconds since the Unix epoch;
JavaScript date parsing (`new Date(s)`) is abstracted as an oracle
`parseDate : String → Option Nat` where `none` models an invalid date
(`isNaN(d.getTime())`).
-/

namespace Crm

/-! ### Data model (backend/schema.sql) -/

/-- A row of the `applications` table (the columns the handler touches). -/
structure Application where
  id : String
  tenant_id : String
  lead_id : String
  status : String
  created_at : Nat
  updated_at : Nat
deriving DecidableEq, Repr

/-- A row of the `tasks` table as the edge function inserts it: `due_at`
is kept as the submitted JSON string (the storage engine parses it). -/
structure Task where
  id : String
  tenant_id : String
  application_id : String
  type : String
  status : String
  due_at : String
deriving DecidableEq, Repr

/-- The storage state the task-creation handler reads and writes. -/
structure DB where
  applications : List Application
  tasks : List Task
deriving DecidableEq, Repr

/-! ### Edge function: create-task (backend/edge-functions/create-task/index.ts) -/

/-- The parsed JSON request body.  Each field is `none` when the key is
absent.  `status` is a field a caller may additionally supply; the
handler's `CreateTaskRequest` interface does not declare it and the
handler never reads it. -/
structure CreateTaskRequest where
  application_id : Option String
  task_type : Option String
  due_at : Option String
  status : Option String := none
deriving DecidableEq, Repr

/-- JavaScript truthiness of a possibly-absent string field, as used by
the handler's `!body.application_id` checks: absent and `""` are falsy. -/
def truthy : Option String → Bool
  | none => false
  | some s => !(s == "")

/-- One hexadecimal digit, case-insensitive (`[0-9a-f]` with the `/i` flag). -/
def isHexDigit (c : Char) : Bool :=
  ('0' ≤ c && c ≤ '9') || ('a' ≤ c && c ≤ 'f') || ('A' ≤ c && c ≤ 'F')

/-- `isValidUUID` from the edge function: the anchored regex
`/^[0-9a-f]{8}-[0-9a-f]{4}-[0-9a-f]{4}-[0-9a-f]{4}-[0-9a-f]{12}$/i`,
i.e. 36 characters with dashes at positions 8, 13, 18, 23 and hex digits
everywhere else. -/
def isValidUUID (s : String) : Bool :=
  let cs := s.data
  cs.length == 36 &&
    (List.range 36).all fun i =>
      if i == 8 || i == 13 || i == 18 || i == 23 then cs.getD i ' ' == '-'
      else isHexDigit (cs.getD i ' ')

/-- `validateTaskType` from the edge function:
`["call", "email", "review"].includes(taskType)`. -/
def validateTaskType (taskType : String) : Bool :=
  ["call", "email", "review"].contains taskType

/-- Result of `validateDueAt`: the source returns either
`{valid: false, error}` or `{valid: true, date}`. -/
inductive DueAtResult where
  | invalid (error : String)
  | valid (date : Nat)
deriving DecidableEq, Repr

/-- `validateDueAt` from the edge function.  `parse` abstracts
`new Date(dueAtString)` (`none` = `isNaN`); a parsed instant `≤ now`
is rejected, only strictly future instants are valid. -/
def validateDueAt (parse : String → Option Nat) (now : Nat)
    (dueAtString : String) : DueAtResult :=
  match parse dueAtString with
  | none => .invalid "Invalid ISO timestamp format"
  | some dueAt =>
    if dueAt ≤ now then .invalid "due_at must be in the future"
    else .valid dueAt

/-- Response payload: `JSON.stringify({success, task_id?, error?})`. -/
structure Payload where
  success : Bool
  task_id : Option String := none
  error : Option String := none
deriving DecidableEq, Repr

/-- An HTTP response: status, optional JSON payload (`none` models the
`null` body of the preflight branch), headers. -/
structure HttpResponse where
  status : Nat
  body : Option Payload
  headers : List (String × String)
deriving DecidableEq, Repr

/-- Headers of the CORS preflight branch. -/
def corsPreflightHeaders : List (String × String) :=
  [("Access-Control-Allow-Origin", "*"),
   ("Access-Control-Allow-Methods", "POST, OPTIONS"),
   ("Access-Control-Allow-Headers", "Content-Type")]

/-- Headers of every JSON response of the handler. -/
def jsonHeaders : List (String × String) :=
  [("Content-Type", "application/json"),
   ("Access-Control-Allow-Origin", "*")]

/-- A `{success: false, error: msg}` response with the given status. -/
def errorResponse (status : Nat) (msg : String) : HttpResponse :=
  { status := status
    body := some { success := false, error := some msg }
    headers := jsonHeaders }

/-- Request methods: the handler distinguishes `OPTIONS`, `POST` and
everything else. -/
inductive HttpMethod where
  | options
  | post
  | other
deriving DecidableEq, Repr

/-- Ambient inputs of one handler invocation: the date-parsing oracle,
the current instant, whether the Supabase environment variables are set,
the identity the storage engine assigns to an inserted row, and whether
the insert and the realtime publish fail. -/
structure Env where
  parseDate : String → Option Nat
  now : Nat
  envOk : Bool
  newTaskId : String
  insertFails : Bool
  publishFails : Bool

/-- Observable outcome of one handler invocation: the HTTP response, the
storage state afterwards, whether storage was reached at all, how many
times the realtime publish was attempted, and whether it succeeded. -/
structure HandlerResult where
  response : HttpResponse
  db : DB
  storageAccessed : Bool
  publishAttempts : Nat
  published : Bool
deriving DecidableEq, Repr

/-- The create-task request handler (`serve(async (req) => ...)`),
translated branch by branch from the source: CORS preflight, method
check, JSON parse (`body? = none` models a parse failure), the three
presence checks, UUID / task-type / due-at validation, the missing
environment variables throw caught as a 500, the application lookup, the
insert with `status` forced to `"pending"`, the best-effort realtime
publish, and the success response carrying the inserted row's id. -/
def serveCreateTask (env : Env) (db : DB) (method : HttpMethod)
    (body? : Option CreateTaskRequest) : HandlerResult :=
  match method with
  | .options =>
    { response := { status := 200, body := none, headers := corsPreflightHeaders }
      db := db, storageAccessed := false, publishAttempts := 0, published := false }
  | .other =>
    { response := errorResponse 405 "Method not allowed. Use POST."
      db := db, storageAccessed := false, publishAttempts := 0, published := false }
  | .post =>
    match body? with
    | none =>
      { response := errorResponse 400 "Invalid JSON in request body"
        db := db, storageAccessed := false, publishAttempts := 0, published := false }
    | some body =>
      if !truthy body.application_id then
        { response := errorResponse 400 "application_id is required"
          db := db, storageAccessed := false, publishAttempts := 0, published := false }
      else if !truthy body.task_type then
        { response := errorResponse 400 "task_type is required"
          db := db, storageAccessed := false, publishAttempts := 0, published := false }
      else if !truthy body.due_at then
        { response := errorResponse 400 "due_at is required"
          db := db, storageAccessed := false, publishAttempts := 0, published := false }
      else
        let appId := body.application_id.getD ""
        let taskType := body.task_type.getD ""
        let dueAt := body.due_at.getD ""
        if !isValidUUID appId then
          { response := errorResponse 400 "application_id must be a valid UUID"
            db := db, storageAccessed := false, publishAttempts := 0, published := false }
        else if !validateTaskType taskType then
          { response := errorResponse 400
              "task_type must be one of: \"call\", \"email\", \"review\""
            db := db, storageAccessed := false, publishAttempts := 0, published := false }
        else
          match validateDueAt env.parseDate env.now dueAt with
          | .invalid e =>
            { response := errorResponse 400 e
              db := db, storageAccessed := false, publishAttempts := 0, published := false }
          | .valid _ =>
            if !env.envOk then
              { response := errorResponse 500 "Internal server error"
                db := db, storageAccessed := false, publishAttempts := 0, published := false }
            else
              match db.applications.find? (fun a => a.id == appId) with
              | none =>
                { response := errorResponse 400 "Application not found"
                  db := db, storageAccessed := true, publishAttempts := 0, published := false }
              | some app =>
                if env.insertFails then
                  { response := errorResponse 500 "Failed to create task"
                    db := db, storageAccessed := true, publishAttempts := 0, published := false }
                else
                  let newTask : Task :=
                    { id := env.newTaskId
                      tenant_id := app.tenant_id
                      application_id := appId
                      type := taskType
                      status := "pending"
                      due_at := dueAt }
                  { response :=
                      { status := 200
                        body := some { success := true, task_id := some env.newTaskId }
                        headers := jsonHeaders }
                    db := { db with tasks := db.tasks ++ [newTask] }
                    storageAccessed := true
                    publishAttempts := 1
                    published := !env.publishFails }

/-- The specification's validation chain (spec §4.1, checks 1-6 in its
stated order, fail-fast, first failure wins), written from the spec's
words so the handler can be compared against it: the result is the error
message of the first failing check, `none` when all six pass. -/
def specValidationFirstFailure (parse : String → Option Nat) (now : Nat)
    (b : CreateTaskRequest) : Option String :=
  if !truthy b.application_id then some "application_id is required"
  else if !truthy b.task_type then some "task_type is required"
  else if !truthy b.due_at then some "due_at is required"
  else if !isValidUUID (b.application_id.getD "") then
    some "application_id must be a valid UUID"
  else if !validateTaskType (b.task_type.getD "") then
    some "task_type must be one of: \"call\", \"email\", \"review\""
  else
    match validateDueAt parse now (b.due_at.getD "") with
    | .invalid e => some e
    | .valid _ => none

/-! ### Dashboard query (pages/dashboard/today.tsx) -/

/-- A row of the `tasks` table as the dashboard reads it; `due_at` is the
stored `timestamptz` value, as an instant. -/
structure TaskRow where
  id : String
  application_id : String
  type : String
  status : String
  due_at : Nat
deriving DecidableEq, Repr

/-- Milliseconds in one UTC calendar day. -/
def msPerDay : Nat := 86400000

/-- Start of the current UTC calendar day, as `getTodaysTasks` computes it
(`now.toISOString().split('T')[0] + 'T00:00:00.000Z'`). -/
def todayStart (now : Nat) : Nat := now / msPerDay * msPerDay

/-- Start of the next UTC calendar day
(`setUTCDate(getUTCDate() + 1)` then truncating to the date). -/
def todayEnd (now : Nat) : Nat := todayStart now + msPerDay

/-- The row filter of the dashboard query:
`.gte("due_at", todayStart).lt("due_at", todayEnd).neq("status", "completed")`. -/
def dashboardFilter (now : Nat) (t : TaskRow) : Bool :=
  decide (todayStart now ≤ t.due_at) && decide (t.due_at < todayEnd now) &&
    !(t.status == "completed")

/-- `getTodaysTasks`: the rows of the `tasks` table inside today's UTC
window whose status is not `"completed"`, ordered by `due_at` ascending
(`.order("due_at", { ascending: true })`). -/
def getTodaysTasks (now : Nat) (table : List TaskRow) : List TaskRow :=
  (table.filter (dashboardFilter now)).insertionSort
    (fun a b => a.due_at ≤ b.due_at)

/-- `markTaskComplete`: set the status of the task with the given id to
`"completed"` (`.update({status: "completed"}).eq("id", taskId)`). -/
def markTaskComplete (taskId : String) (table : List TaskRow) : List TaskRow :=
  table.map fun t => if t.id == taskId then { t with status := "completed" } else t

/-! ### Row-level security on leads (backend/rls_policies.sql) -/

/-- The identity claims the policies read from `auth.jwt()`. -/
structure JwtClaims where
  role : String
  tenant_id : String
  user_id : String
deriving DecidableEq, Repr

/-- A row of the `user_teams` table. -/
structure UserTeam where
  user_id : String
  team_id : String
deriving DecidableEq, Repr

/-- A row of the `leads` table. -/
structure Lead where
  id : String
  tenant_id : String
  owner_id : String
  team_id : Option String
  name : String
  email : Option String
  phone : Option String
  stage : String
  created_at : Nat
  updated_at : Nat
deriving DecidableEq, Repr

/-- Membership of the row's `team_id` in the caller's teams:
`team_id IN (SELECT team_id FROM user_teams WHERE user_id = ...)`.
A `NULL` `team_id` never satisfies `IN`. -/
def teamMatch (jwt : JwtClaims) (userTeams : List UserTeam) (row : Lead) : Bool :=
  match row.team_id with
  | none => false
  | some t => userTeams.any fun ut => ut.user_id == jwt.user_id && ut.team_id == t

/-- `leads_select_policy` USING clause: admins see all leads in their
tenant; counselors see leads they own or leads of their teams. -/
def leadsSelectUsing (jwt : JwtClaims) (userTeams : List UserTeam) (row : Lead) : Bool :=
  (jwt.role == "admin" && row.tenant_id == jwt.tenant_id)
  || (jwt.role == "counselor" && row.owner_id == jwt.user_id)
  || (jwt.role == "counselor" && teamMatch jwt userTeams row)

/-- `leads_insert_policy` WITH CHECK clause. -/
def leadsInsertCheck (jwt : JwtClaims) (row : Lead) : Bool :=
  row.tenant_id == jwt.tenant_id
    && (jwt.role == "admin" || jwt.role == "counselor")

/-- `leads_update_policy` USING clause (evaluated on the existing row). -/
def leadsUpdateUsing (jwt : JwtClaims) (userTeams : List UserTeam) (row : Lead) : Bool :=
  (jwt.role == "admin" && row.tenant_id == jwt.tenant_id)
  || (jwt.role == "counselor" && row.owner_id == jwt.user_id)
  || (jwt.role == "counselor" && teamMatch jwt userTeams row)

/-- `leads_update_policy` WITH CHECK clause (evaluated on the post-write row). -/
def leadsUpdateCheck (jwt : JwtClaims) (row : Lead) : Bool :=
  row.tenant_id == jwt.tenant_id

/-- An UPDATE of `oldRow` into `newRow` is permitted when the USING
clause accepts the existing row and the WITH CHECK clause accepts the
post-write row. -/
def leadsUpdateAllowed (jwt : JwtClaims) (userTeams : List UserTeam)
    (oldRow newRow : Lead) : Bool :=
  leadsUpdateUsing jwt userTeams oldRow && leadsUpdateCheck jwt newRow

/-- `leads_delete_policy` USING clause. -/
def leadsDeleteUsing (jwt : JwtClaims) (row : Lead) : Bool :=
  jwt.role == "admin" && row.tenant_id == jwt.tenant_id

end Crm

namespace Crm

instance : IsTotal TaskRow fun a b => a.due_at ≤ b.due_at :=
  ⟨fun a b => Nat.le_total a.due_at b.due_at⟩

instance : IsTrans TaskRow fun a b => a.due_at ≤ b.due_at :=
  ⟨fun _ _ _ => Nat.le_trans⟩

lemma isValidUUID_ne_empty {s : String} (h : isValidUUID s = true) : s ≠ "" := by
  intro he
  subst he
  exact absurd h (by decide)

lemma validateTaskType_ne_empty {s : String} (h : validateTaskType s = true) : s ≠ "" := by
  intro he
  subst he
  exact absurd h (by decide)

lemma serveCreateTask_validation_fail (env : Env) (db : DB) (b : CreateTaskRequest)
    (msg : String)
    (h : specValidationFirstFailure env.parseDate env.now b = some msg) :
    serveCreateTask env db .post (some b) =
      { response := errorResponse 400 msg, db := db, storageAccessed := false,
        publishAttempts := 0, published := false } := by
  unfold specValidationFirstFailure at h
  unfold serveCreateTask
  repeat' split at h <;> simp_all

lemma serveCreateTask_success_eq (env : Env) (db : DB) (b : CreateTaskRequest)
    (s tt da : String) (t : Nat) (app : Application)
    (hs : b.application_id = some s) (htt : b.task_type = some tt)
    (hda : b.due_at = some da) (hdane : da ≠ "")
    (huuid : isValidUUID s = true) (htype : validateTaskType tt = true)
    (hparse : env.parseDate da = some t) (hfut : env.now < t)
    (henv : env.envOk = true) (hins : env.insertFails = false)
    (happ : db.applications.find? (fun a => a.id == s) = some app) :
    serveCreateTask env db .post (some b) =
      { response :=
          { status := 200
            body := some { success := true, task_id := some env.newTaskId }
            headers := jsonHeaders }
        db :=
          { applications := db.applications
            tasks := db.tasks ++
              [{ id := env.newTaskId, tenant_id := app.tenant_id, application_id := s,
                 type := tt, status := "pending", due_at := da }] }
        storageAccessed := true
        publishAttempts := 1
        published := !env.publishFails } := by
  have hsne : s ≠ "" := isValidUUID_ne_empty huuid
  have httne : tt ≠ "" := validateTaskType_ne_empty htype
  have hnle : ¬ (t ≤ env.now) := Nat.not_le.mpr hfut
  simp only [serveCreateTask, hs, htt, hda]
  simp [truthy, hsne, httne, hdane, huuid, htype, validateDueAt, hparse, hnle,
        henv, hins, happ]

lemma serveCreateTask_app_not_found_eq (env : Env) (db : DB) (b : CreateTaskRequest)
    (s tt da : String) (t : Nat)
    (hs : b.application_id = some s) (htt : b.task_type = some tt)
    (hda : b.due_at = some da) (hdane : da ≠ "")
    (huuid : isValidUUID s = true) (htype : validateTaskType tt = true)
    (hparse : env.parseDate da = some t) (hfut : env.now < t)
    (henv : env.envOk = true)
    (happ : db.applications.find? (fun a => a.id == s) = none) :
    serveCreateTask env db .post (some b) =
      { response := errorResponse 400 "Application not found", db := db,
        storageAccessed := true, publishAttempts := 0, published := false } := by
  have hsne : s ≠ "" := isValidUUID_ne_empty huuid
  have httne : tt ≠ "" := validateTaskType_ne_empty htype
  have hnle : ¬ (t ≤ env.now) := Nat.not_le.mpr hfut
  simp only [serveCreateTask, hs, htt, hda]
  simp [truthy, hsne, httne, hdane, huuid, htype, validateDueAt, hparse, hnle,
        henv, happ]

lemma specValidationFirstFailure_due (parse : String → Option Nat) (now : Nat)
    (b : CreateTaskRequest) (s tt da : String)
    (hs : b.application_id = some s) (htt : b.task_type = some tt)
    (hda : b.due_at = some da) (hdane : da ≠ "")
    (huuid : isValidUUID s = true) (htype : validateTaskType tt = true) :
    specValidationFirstFailure parse now b =
      match validateDueAt parse now da with
      | .invalid e => some e
      | .valid _ => none := by
  have hsne : s ≠ "" := isValidUUID_ne_empty huuid
  have httne : tt ≠ "" := validateTaskType_ne_empty htype
  simp only [specValidationFirstFailure, hs, htt, hda]
  simp [truthy, hsne, httne, hdane, huuid, htype]

end Crm

namespace Crm

/-- C1: for every valid POST request whose application_id references an
existing Application, the handler appends exactly one Task row with
status forced to "pending" (whatever status the caller supplied in the
body), type and due_at from the request, tenant_id from the referenced
Application, and responds 200 with success true and a task_id equal to
the persisted row's identity. -/
theorem c1_create_task_success (env : Env) (db : DB) (b : CreateTaskRequest)
    (s tt da : String) (t : Nat) (app : Application)
    (hs : b.application_id = some s) (htt : b.task_type = some tt)
    (hda : b.due_at = some da) (hdane : da ≠ "")
    (huuid : isValidUUID s = true) (htype : validateTaskType tt = true)
    (hparse : env.parseDate da = some t) (hfut : env.now < t)
    (henv : env.envOk = true) (hins : env.insertFails = false)
    (happ : db.applications.find? (fun a => a.id == s) = some app) :
    (serveCreateTask env db .post (some b)).response =
      { status := 200
        body := some { success := true, task_id := some env.newTaskId }
        headers := jsonHeaders }
    ∧ (serveCreateTask env db .post (some b)).db.tasks =
        db.tasks ++
          [{ id := env.newTaskId, tenant_id := app.tenant_id, application_id := s,
             type := tt, status := "pending", due_at := da }]
    ∧ (serveCreateTask env db .post (some b)).db.applications = db.applications := by
  rw [serveCreateTask_success_eq env db b s tt da t app hs htt hda hdane huuid htype
    hparse hfut henv hins happ]
  exact ⟨rfl, rfl, rfl⟩

/-- Witness for C1 at a concrete request, application and environment;
the caller even supplies status "completed", which is ignored. -/
theorem c1_create_task_success_witness :
    (serveCreateTask ⟨fun _ => some 100, 5, true, "tid-1", false, false⟩
        ⟨[⟨"550e8400-e29b-41d4-a716-446655440000", "tenant-1", "lead-1", "pending", 0, 0⟩],
          []⟩
        .post (some ⟨some "550e8400-e29b-41d4-a716-446655440000", some "call",
          some "2030-01-01T00:00:00.000Z", some "completed"⟩)).response =
      { status := 200
        body := some { success := true, task_id := some "tid-1" }
        headers := jsonHeaders }
    ∧ (serveCreateTask ⟨fun _ => some 100, 5, true, "tid-1", false, false⟩
        ⟨[⟨"550e8400-e29b-41d4-a716-446655440000", "tenant-1", "lead-1", "pending", 0, 0⟩],
          []⟩
        .post (some ⟨some "550e8400-e29b-41d4-a716-446655440000", some "call",
          some "2030-01-01T00:00:00.000Z", some "completed"⟩)).db.tasks =
      [⟨"tid-1", "tenant-1", "550e8400-e29b-41d4-a716-446655440000", "call", "pending",
        "2030-01-01T00:00:00.000Z"⟩] := by
  obtain ⟨h1, h2, h3⟩ := c1_create_task_success
    ⟨fun _ => some 100, 5, true, "tid-1", false, false⟩
    ⟨[⟨"550e8400-e29b-41d4-a716-446655440000", "tenant-1", "lead-1", "pending", 0, 0⟩], []⟩
    ⟨some "550e8400-e29b-41d4-a716-446655440000", some "call",
      some "2030-01-01T00:00:00.000Z", some "completed"⟩
    "550e8400-e29b-41d4-a716-446655440000" "call" "2030-01-01T00:00:00.000Z" 100
    ⟨"550e8400-e29b-41d4-a716-446655440000", "tenant-1", "lead-1", "pending", 0, 0⟩
    rfl rfl rfl (by decide) (by decide) (by decide) rfl (by decide) rfl rfl (by decide)
  exact ⟨h1, h2⟩

/-- C2: whenever the specification's fail-fast validation chain (checks
1-6, in its exact order) fails with a message, the handler responds 400
with exactly that message; and the messages of the individual checks are
pairwise distinct. -/
theorem c2_validation_order (env : Env) (db : DB) (b : CreateTaskRequest) (msg : String)
    (h : specValidationFirstFailure env.parseDate env.now b = some msg) :
    (serveCreateTask env db .post (some b)).response = errorResponse 400 msg
    ∧ List.Pairwise (fun a b : String => a ≠ b)
        ["application_id is required", "task_type is required", "due_at is required",
         "application_id must be a valid UUID",
         "task_type must be one of: \"call\", \"email\", \"review\"",
         "Invalid ISO timestamp format", "due_at must be in the future"] := by
  rw [serveCreateTask_validation_fail env db b msg h]
  exact ⟨rfl, by decide⟩

/-- Witness for C2: an absent application_id is the first failing check. -/
theorem c2_validation_order_witness :
    specValidationFirstFailure (fun _ => some 100) 5 ⟨none, some "call", some "x", none⟩ =
      some "application_id is required"
    ∧ (serveCreateTask ⟨fun _ => some 100, 5, true, "tid-1", false, false⟩ ⟨[], []⟩
        .post (some ⟨none, some "call", some "x", none⟩)).response =
      errorResponse 400 "application_id is required" :=
  ⟨rfl,
    (c2_validation_order ⟨fun _ => some 100, 5, true, "tid-1", false, false⟩ ⟨[], []⟩
      ⟨none, some "call", some "x", none⟩ "application_id is required" rfl).1⟩

/-- C3: a due_at string that does not parse yields a 400 with the
invalid-format error; one that parses to an instant less than or equal
to now yields a 400 "due_at must be in the future"; only strictly future
instants pass the due-at check. -/
theorem c3_due_at_validation (env : Env) (db : DB) (b : CreateTaskRequest)
    (s tt da : String)
    (hs : b.application_id = some s) (htt : b.task_type = some tt)
    (hda : b.due_at = some da) (hdane : da ≠ "")
    (huuid : isValidUUID s = true) (htype : validateTaskType tt = true) :
    (env.parseDate da = none →
      (serveCreateTask env db .post (some b)).response =
        errorResponse 400 "Invalid ISO timestamp format")
    ∧ (∀ t : Nat, env.parseDate da = some t → t ≤ env.now →
      (serveCreateTask env db .post (some b)).response =
        errorResponse 400 "due_at must be in the future")
    ∧ (∀ t : Nat, env.parseDate da = some t → env.now < t →
      validateDueAt env.parseDate env.now da = .valid t) := by
  have hspec := specValidationFirstFailure_due env.parseDate env.now b s tt da
    hs htt hda hdane huuid htype
  refine ⟨fun hp => ?_, fun t hp hle => ?_, fun t hp hlt => ?_⟩
  · have h : specValidationFirstFailure env.parseDate env.now b =
        some "Invalid ISO timestamp format" := by
      rw [hspec]; simp [validateDueAt, hp]
    rw [serveCreateTask_validation_fail env db b _ h]
  · have h : specValidationFirstFailure env.parseDate env.now b =
        some "due_at must be in the future" := by
      rw [hspec]; simp [validateDueAt, hp, hle]
    rw [serveCreateTask_validation_fail env db b _ h]
  · simp [validateDueAt, hp, Nat.not_le.mpr hlt]

/-- Witness for C3, exercising all three branches: an unparseable due_at,
a past due_at, and a strictly future one. -/
theorem c3_due_at_validation_witness :
    (serveCreateTask ⟨fun _ => none, 5, true, "tid-1", false, false⟩ ⟨[], []⟩
        .post (some ⟨some "550e8400-e29b-41d4-a716-446655440000", some "call",
          some "not-a-date", none⟩)).response =
      errorResponse 400 "Invalid ISO timestamp format"
    ∧ (serveCreateTask ⟨fun _ => some 3, 5, true, "tid-1", false, false⟩ ⟨[], []⟩
        .post (some ⟨some "550e8400-e29b-41d4-a716-446655440000", some "call",
          some "1970-01-01T00:00:00.003Z", none⟩)).response =
      errorResponse 400 "due_at must be in the future"
    ∧ validateDueAt (fun _ => some 100) 5 "2030-01-01T00:00:00.000Z" = .valid 100 :=
  ⟨(c3_due_at_validation ⟨fun _ => none, 5, true, "tid-1", false, false⟩ ⟨[], []⟩
      ⟨some "550e8400-e29b-41d4-a716-446655440000", some "call", some "not-a-date", none⟩
      "550e8400-e29b-41d4-a716-446655440000" "call" "not-a-date"
      rfl rfl rfl (by decide) (by decide) (by decide)).1 rfl,
   (c3_due_at_validation ⟨fun _ => some 3, 5, true, "tid-1", false, false⟩ ⟨[], []⟩
      ⟨some "550e8400-e29b-41d4-a716-446655440000", some "call",
        some "1970-01-01T00:00:00.003Z", none⟩
      "550e8400-e29b-41d4-a716-446655440000" "call" "1970-01-01T00:00:00.003Z"
      rfl rfl rfl (by decide) (by decide) (by decide)).2.1 3 rfl (by decide),
   (c3_due_at_validation ⟨fun _ => some 100, 5, true, "tid-1", false, false⟩ ⟨[], []⟩
      ⟨some "550e8400-e29b-41d4-a716-446655440000", some "call",
        some "2030-01-01T00:00:00.000Z", none⟩
      "550e8400-e29b-41d4-a716-446655440000" "call" "2030-01-01T00:00:00.000Z"
      rfl rfl rfl (by decide) (by decide) (by decide)).2.2 100 rfl (by decide)⟩

/-- C4: every request that fails a validation check gets status 400 with
payload success false and the check's error message, the storage state
is unchanged, and storage is never accessed. -/
theorem c4_validation_failure_no_side_effect (env : Env) (db : DB)
    (b : CreateTaskRequest) (msg : String)
    (h : specValidationFirstFailure env.parseDate env.now b = some msg) :
    (serveCreateTask env db .post (some b)).response.status = 400
    ∧ (serveCreateTask env db .post (some b)).response.body =
        some { success := false, task_id := none, error := some msg }
    ∧ (serveCreateTask env db .post (some b)).db = db
    ∧ (serveCreateTask env db .post (some b)).storageAccessed = false := by
  rw [serveCreateTask_validation_fail env db b msg h]
  exact ⟨rfl, rfl, rfl, rfl⟩

/-- Witness for C4: a syntactically invalid UUID fails with a 400 and
leaves a nonempty storage state untouched, without any storage access. -/
theorem c4_validation_failure_no_side_effect_witness :
    (serveCreateTask ⟨fun _ => some 100, 5, true, "tid-1", false, false⟩
        ⟨[⟨"550e8400-e29b-41d4-a716-446655440000", "tenant-1", "lead-1", "pending", 0, 0⟩],
          []⟩
        .post (some ⟨some "not-a-uuid", some "call", some "x", none⟩)).response.status = 400
    ∧ (serveCreateTask ⟨fun _ => some 100, 5, true, "tid-1", false, false⟩
        ⟨[⟨"550e8400-e29b-41d4-a716-446655440000", "tenant-1", "lead-1", "pending", 0, 0⟩],
          []⟩
        .post (some ⟨some "not-a-uuid", some "call", some "x", none⟩)).db =
      ⟨[⟨"550e8400-e29b-41d4-a716-446655440000", "tenant-1", "lead-1", "pending", 0, 0⟩], []⟩
    ∧ (serveCreateTask ⟨fun _ => some 100, 5, true, "tid-1", false, false⟩
        ⟨[⟨"550e8400-e29b-41d4-a716-446655440000", "tenant-1", "lead-1", "pending", 0, 0⟩],
          []⟩
        .post (some ⟨some "not-a-uuid", some "call", some "x", none⟩)).storageAccessed =
      false := by
  obtain ⟨h1, h2, h3, h4⟩ := c4_validation_failure_no_side_effect
    ⟨fun _ => some 100, 5, true, "tid-1", false, false⟩
    ⟨[⟨"550e8400-e29b-41d4-a716-446655440000", "tenant-1", "lead-1", "pending", 0, 0⟩], []⟩
    ⟨some "not-a-uuid", some "call", some "x", none⟩
    "application_id must be a valid UUID" (by decide)
  exact ⟨h1, h3, h4⟩

/-- C5: a syntactically valid request whose application_id matches no
Application row gets a 400 "Application not found" and the storage state
is unchanged. -/
theorem c5_application_not_found (env : Env) (db : DB) (b : CreateTaskRequest)
    (s tt da : String) (t : Nat)
    (hs : b.application_id = some s) (htt : b.task_type = some tt)
    (hda : b.due_at = some da) (hdane : da ≠ "")
    (huuid : isValidUUID s = true) (htype : validateTaskType tt = true)
    (hparse : env.parseDate da = some t) (hfut : env.now < t)
    (henv : env.envOk = true)
    (happ : db.applications.find? (fun a => a.id == s) = none) :
    (serveCreateTask env db .post (some b)).response =
      errorResponse 400 "Application not found"
    ∧ (serveCreateTask env db .post (some b)).response.status = 400
    ∧ (serveCreateTask env db .post (some b)).db = db := by
  rw [serveCreateTask_app_not_found_eq env db b s tt da t hs htt hda hdane huuid htype
    hparse hfut henv happ]
  exact ⟨rfl, rfl, rfl⟩

/-- Witness for C5: a well-formed request against an empty applications
table. -/
theorem c5_application_not_found_witness :
    (serveCreateTask ⟨fun _ => some 100, 5, true, "tid-1", false, false⟩ ⟨[], []⟩
        .post (some ⟨some "550e8400-e29b-41d4-a716-446655440000", some "call",
          some "2030-01-01T00:00:00.000Z", none⟩)).response =
      errorResponse 400 "Application not found"
    ∧ (serveCreateTask ⟨fun _ => some 100, 5, true, "tid-1", false, false⟩ ⟨[], []⟩
        .post (some ⟨some "550e8400-e29b-41d4-a716-446655440000", some "call",
          some "2030-01-01T00:00:00.000Z", none⟩)).db = ⟨[], []⟩ := by
  obtain ⟨h1, h2, h3⟩ := c5_application_not_found
    ⟨fun _ => some 100, 5, true, "tid-1", false, false⟩ ⟨[], []⟩
    ⟨some "550e8400-e29b-41d4-a716-446655440000", some "call",
      some "2030-01-01T00:00:00.000Z", none⟩
    "550e8400-e29b-41d4-a716-446655440000" "call" "2030-01-01T00:00:00.000Z" 100
    rfl rfl rfl (by decide) (by decide) (by decide) rfl (by decide) rfl rfl
  exact ⟨h1, h3⟩

/-- C6: once the insert has succeeded the caller-visible response is the
200 success response whatever the publish outcome; the publish is
attempted exactly once (never retried) and its failure is swallowed. -/
theorem c6_publish_best_effort (env : Env) (db : DB) (b : CreateTaskRequest)
    (s tt da : String) (t : Nat) (app : Application)
    (hs : b.application_id = some s) (htt : b.task_type = some tt)
    (hda : b.due_at = some da) (hdane : da ≠ "")
    (huuid : isValidUUID s = true) (htype : validateTaskType tt = true)
    (hparse : env.parseDate da = some t) (hfut : env.now < t)
    (henv : env.envOk = true) (hins : env.insertFails = false)
    (happ : db.applications.find? (fun a => a.id == s) = some app) :
    ∀ publishFailure : Bool,
      (serveCreateTask { env with publishFails := publishFailure } db .post
          (some b)).response =
        { status := 200
          body := some { success := true, task_id := some env.newTaskId }
          headers := jsonHeaders }
      ∧ (serveCreateTask { env with publishFails := publishFailure } db .post
          (some b)).publishAttempts = 1
      ∧ (serveCreateTask { env with publishFails := publishFailure } db .post
          (some b)).published = !publishFailure := by
  intro publishFailure
  rw [serveCreateTask_success_eq { env with publishFails := publishFailure } db b
    s tt da t app hs htt hda hdane huuid htype hparse hfut henv hins happ]
  exact ⟨rfl, rfl, rfl⟩

/-- Witness for C6: the publish fails and the response is still the 200
success response, after a single publish attempt. -/
theorem c6_publish_best_effort_witness :
    (serveCreateTask ⟨fun _ => some 100, 5, true, "tid-1", false, true⟩
        ⟨[⟨"550e8400-e29b-41d4-a716-446655440000", "tenant-1", "lead-1", "pending", 0, 0⟩],
          []⟩
        .post (some ⟨some "550e8400-e29b-41d4-a716-446655440000", some "call",
          some "2030-01-01T00:00:00.000Z", none⟩)).response =
      { status := 200
        body := some { success := true, task_id := some "tid-1" }
        headers := jsonHeaders }
    ∧ (serveCreateTask ⟨fun _ => some 100, 5, true, "tid-1", false, true⟩
        ⟨[⟨"550e8400-e29b-41d4-a716-446655440000", "tenant-1", "lead-1", "pending", 0, 0⟩],
          []⟩
        .post (some ⟨some "550e8400-e29b-41d4-a716-446655440000", some "call",
          some "2030-01-01T00:00:00.000Z", none⟩)).publishAttempts = 1 := by
  obtain ⟨h1, h2, h3⟩ := c6_publish_best_effort
    ⟨fun _ => some 100, 5, true, "tid-1", false, false⟩
    ⟨[⟨"550e8400-e29b-41d4-a716-446655440000", "tenant-1", "lead-1", "pending", 0, 0⟩], []⟩
    ⟨some "550e8400-e29b-41d4-a716-446655440000", some "call",
      some "2030-01-01T00:00:00.000Z", none⟩
    "550e8400-e29b-41d4-a716-446655440000" "call" "2030-01-01T00:00:00.000Z" 100
    ⟨"550e8400-e29b-41d4-a716-446655440000", "tenant-1", "lead-1", "pending", 0, 0⟩
    rfl rfl rfl (by decide) (by decide) (by decide) rfl (by decide) rfl rfl (by decide)
    true
  exact ⟨h1, h2⟩

/-- C7: the dashboard fetch returns exactly the tasks whose due instant
lies in the half-open window of the current UTC calendar day and whose
status is not "completed", sorted ascending by due instant. -/
theorem c7_dashboard_query (now : Nat) (table : List TaskRow) :
    List.Perm (getTodaysTasks now table)
      (table.filter fun t =>
        decide (todayStart now ≤ t.due_at) &&
          decide (t.due_at < todayStart now + msPerDay) &&
          !(t.status == "completed"))
    ∧ List.Sorted (fun a b : TaskRow => a.due_at ≤ b.due_at) (getTodaysTasks now table)
    ∧ (∀ t : TaskRow, t ∈ getTodaysTasks now table ↔
        (t ∈ table ∧ todayStart now ≤ t.due_at ∧ t.due_at < todayStart now + msPerDay ∧
          t.status ≠ "completed")) := by
  refine ⟨?_, ?_, ?_⟩
  · exact List.perm_insertionSort _ _
  · exact List.sorted_insertionSort _ _
  · intro t
    simp [getTodaysTasks, List.mem_insertionSort, List.mem_filter, dashboardFilter,
      todayEnd, and_assoc]

/-- C8: a permitted UPDATE on a leads row requires the visibility
disjunction on the existing row (admin in tenant, counselor owning the
row, or counselor on the row's team) and forces the post-write row to
stay in the caller's tenant. -/
theorem c8_leads_update_policy (jwt : JwtClaims) (userTeams : List UserTeam)
    (oldRow newRow : Lead)
    (h : leadsUpdateAllowed jwt userTeams oldRow newRow = true) :
    ((jwt.role = "admin" ∧ oldRow.tenant_id = jwt.tenant_id)
      ∨ (jwt.role = "counselor" ∧ oldRow.owner_id = jwt.user_id)
      ∨ (jwt.role = "counselor" ∧ teamMatch jwt userTeams oldRow = true))
    ∧ leadsSelectUsing jwt userTeams oldRow = true
    ∧ newRow.tenant_id = jwt.tenant_id := by
  unfold leadsUpdateAllowed leadsUpdateUsing leadsUpdateCheck at h
  simp only [Bool.and_eq_true, Bool.or_eq_true, beq_iff_eq] at h
  obtain ⟨hu, hc⟩ := h
  refine ⟨?_, ?_, hc⟩
  · rcases hu with (⟨h1, h2⟩ | ⟨h1, h2⟩) | ⟨h1, h2⟩
    · exact Or.inl ⟨h1, h2⟩
    · exact Or.inr (Or.inl ⟨h1, h2⟩)
    · exact Or.inr (Or.inr ⟨h1, h2⟩)
  · unfold leadsSelectUsing
    simp only [Bool.and_eq_true, Bool.or_eq_true, beq_iff_eq]
    exact hu

/-- Witness for C8: a counselor updating a lead of one of their teams,
with the tenant preserved. -/
theorem c8_leads_update_policy_witness :
    ((("counselor" : String) = "admin" ∧ ("T1" : String) = "T1")
      ∨ (("counselor" : String) = "counselor" ∧ ("U2" : String) = "U1")
      ∨ (("counselor" : String) = "counselor" ∧
          teamMatch ⟨"counselor", "T1", "U1"⟩ [⟨"U1", "TeamA"⟩]
            ⟨"L1", "T1", "U2", some "TeamA", "John Smith", none, none, "new", 0, 0⟩ = true))
    ∧ leadsSelectUsing ⟨"counselor", "T1", "U1"⟩ [⟨"U1", "TeamA"⟩]
        ⟨"L1", "T1", "U2", some "TeamA", "John Smith", none, none, "new", 0, 0⟩ = true
    ∧ ("T1" : String) = "T1" :=
  c8_leads_update_policy ⟨"counselor", "T1", "U1"⟩ [⟨"U1", "TeamA"⟩]
    ⟨"L1", "T1", "U2", some "TeamA", "John Smith", none, none, "new", 0, 0⟩
    ⟨"L1", "T1", "U2", some "TeamA", "John Smith", none, none, "qualified", 0, 1⟩
    (by decide)

/-- C9: every OPTIONS request is answered with an empty body and the
permissive CORS preflight headers, leaving storage untouched and
bypassing the validation pipeline entirely (the body, even an
unparseable one, is irrelevant). -/
theorem c9_options_preflight (env : Env) (db : DB) (body? : Option CreateTaskRequest) :
    serveCreateTask env db .options body? =
      { response := { status := 200, body := none, headers := corsPreflightHeaders }
        db := db, storageAccessed := false, publishAttempts := 0, published := false } :=
  rfl

/-- C10: a POST whose body is not parseable JSON gets status 400 with
exactly the payload success false, error "Invalid JSON in request body",
with no storage access and no change to the storage state. -/
theorem c10_invalid_json (env : Env) (db : DB) :
    serveCreateTask env db .post none =
      { response :=
          { status := 400
            body := some { success := false, task_id := none,
                           error := some "Invalid JSON in request body" }
            headers := jsonHeaders }
        db := db, storageAccessed := false, publishAttempts := 0, published := false } :=
  rfl

end Crm
